import Mathlib

/-!
# Verification of the attestation/consent compliance workflow

A shallow embedding of the lawyer-attestation and consent model layer of the
Alberta Access Legal repository (`convex/model/attestation.js`,
`convex/model/consent.ts`, the `attestations.*` mutation/query handlers and
the `consent.*` handlers), together with theorems settling the specified
properties of that workflow.

Conventions of the embedding:
- JavaScript values that may be `undefined` are `Option` values.
- JS string/number truthiness (`""` and `0` are falsy) is modelled by
  `jsTruthyStr` / `jsTruthyNat` / `jsOrStr`.
- The Convex tables are lists: `attestations` is a `List AttestationRecord`
  and the shared `consentAuditLog` ledger a `List AuditEvent`; an insert is an
  append, `patch` replaces the first record found by the `by_user` index.
- `Date.now()` is an explicit `now : Nat` argument at each call site.
- Host-level transaction rollback is not modelled: the embedding executes the
  database operations of a handler in program order.
-/

namespace AlbertaLegal

/-! ## JS value helpers -/

/-- JS truthiness of a possibly-undefined string: `undefined` and `""` are falsy. -/
def jsTruthyStr : Option String → Bool
  | none => false
  | some s => decide (s ≠ "")

/-- JS truthiness of a possibly-undefined number: `undefined` and `0` are falsy. -/
def jsTruthyNat : Option Nat → Bool
  | none => false
  | some n => decide (n ≠ 0)

/-- JS `x || dflt` on a possibly-undefined string. -/
def jsOrStr (x : Option String) (dflt : String) : String :=
  match x with
  | some s => if s ≠ "" then s else dflt
  | none => dflt

/-- JS `String.prototype.trim`: strip whitespace from both ends. -/
def jsTrim (s : String) : String :=
  ⟨((s.data.dropWhile Char.isWhitespace).reverse.dropWhile Char.isWhitespace).reverse⟩

/-- `true` exactly on an `Except.ok` value. -/
def exceptOk {e a : Type} : Except e a → Bool
  | .ok _ => true
  | .error _ => false

/-- JS `!s || s.trim() === ''`: the blank test used for required string fields. -/
def blankStr : Option String → Bool
  | none => true
  | some s => decide (s = "") || decide (jsTrim s = "")

/-- One character of the class `[A-Z0-9]`. -/
def isUpperAlnum (c : Char) : Bool :=
  (decide (65 ≤ c.toNat) && decide (c.toNat ≤ 90)) ||
  (decide (48 ≤ c.toNat) && decide (c.toNat ≤ 57))

/-- `/^[A-Z0-9]{4,10}$/.test t`. -/
def barNumberFormatOk (t : String) : Bool :=
  decide (4 ≤ t.data.length) && decide (t.data.length ≤ 10) && t.data.all isUpperAlnum

/-- Split a character list at every dot, keeping empty components. -/
def splitOnDots : List Char → List (List Char)
  | [] => [[]]
  | c :: rest =>
    match splitOnDots rest with
    | [] => [[]]
    | h :: t => if c = '.' then [] :: h :: t else (c :: h) :: t

/-- `/^\d+$/` on one dot-separated component. -/
def digitsOnly (l : List Char) : Bool :=
  decide (1 ≤ l.length) && l.all Char.isDigit

/-- `/^\d+\.\d+(\.\d+)?$/.test s`: two or three dot-separated digit runs. -/
def versionFormatOk (s : String) : Bool :=
  match splitOnDots s.data with
  | [a, b] => digitsOnly a && digitsOnly b
  | [a, b, c] => digitsOnly a && digitsOnly b && digitsOnly c
  | _ => false

/-! ## Constants (`attestation.js`, `consent.ts`) -/

namespace ATTESTATION_EVENTS

def ATTESTATION_SUBMITTED : String := "attestation_submitted"

def ATTESTATION_UPDATED : String := "attestation_updated"

end ATTESTATION_EVENTS

def CURRENT_ATTESTATION_VERSION : String := "1.0"

namespace AUDIT_EVENTS

def TERMS_ACCEPTED : String := "terms_accepted"

def PRIVACY_ACCEPTED : String := "privacy_accepted"

def CONSENT_WITHDRAWN : String := "consent_withdrawn"

def CONSENT_UPDATED : String := "consent_updated"

def MARKETING_OPTED_IN : String := "marketing_opted_in"

def MARKETING_OPTED_OUT : String := "marketing_opted_out"

end AUDIT_EVENTS

def CURRENT_CONSENT_VERSION : String := "1.0"

/-- `Object.values(CONSENT_TYPES)` in declaration order. -/
def CONSENT_TYPES_LIST : List String := ["terms", "privacy", "dataProcessing", "marketing"]

/-- `REQUIRED_CONSENT_TYPES`. -/
def REQUIRED_CONSENT_TYPES : List String := ["terms", "privacy", "dataProcessing"]

/-! ## Data model -/

/-- The consent object embedded on a user (`users.consent` in the schema):
three required grants, the optional marketing grant, a version and timestamp. -/
structure ConsentRecord where
  terms : Bool
  privacy : Bool
  dataProcessing : Bool
  marketing : Option Bool
  version : String
  timestamp : Nat
  deriving DecidableEq

/-- The argument object of `updateMyConsent` / `updateConsent`: every field may
be absent (partial update). -/
structure ConsentData where
  terms : Option Bool := none
  privacy : Option Bool := none
  dataProcessing : Option Bool := none
  marketing : Option Bool := none
  version : Option String := none
  deriving DecidableEq

/-- The `attestationFields` sub-object stored in attestation event metadata. -/
structure AttFieldsMeta where
  isLicensed : Option Bool
  isInGoodStanding : Option Bool
  noDisciplinaryActions : Option Bool
  profileAccurate : Option Bool
  willUpdateOnChange : Option Bool
  understandsLiability : Option Bool
  deriving DecidableEq

/-- The free-form `metadata` object of an audit event: the union of the keys
the call sites in `consent.ts` and `attestation.js` actually write. Absent
keys are `none`. -/
structure EventMeta where
  ipAddress : Option String := none
  userAgent : Option String := none
  version : Option String := none
  reason : Option String := none
  action : Option String := none
  message : Option String := none
  consentType : Option String := none
  previousValue : Option (Option Bool) := none
  newValue : Option (Option Bool) := none
  attemptedWithdrawal : Option (List String) := none
  previousConsent : Option (Option ConsentRecord) := none
  newConsent : Option ConsentRecord := none
  barNumber : Option (Option String) := none
  legalName : Option (Option String) := none
  isUpdate : Option Bool := none
  attestationFields : Option AttFieldsMeta := none
  deriving DecidableEq

/-- One row of the shared `consentAuditLog` table. -/
structure AuditEvent where
  userId : String
  event : String
  version : String
  timestamp : Nat
  ipAddress : Option String
  userAgent : Option String
  metadata : EventMeta
  deriving DecidableEq

/-- The payload of `submitAttestation` (the `attestationFields` args), plus the
`ipAddress` the handler merges in before validating and storing. -/
structure AttestationPayload where
  legalName : Option String
  barNumber : Option String
  isLicensed : Option Bool
  isInGoodStanding : Option Bool
  noDisciplinaryActions : Option Bool
  profileAccurate : Option Bool
  willUpdateOnChange : Option Bool
  understandsLiability : Option Bool
  attestationVersion : Option String
  ipAddress : Option String
  deriving DecidableEq

/-- One row of the `attestations` table. `creationTime` models the Convex
system field `_creationTime`, which `db.patch` never touches. -/
structure AttestationRecord where
  creationTime : Nat
  userId : String
  legalName : Option String
  barNumber : Option String
  isLicensed : Option Bool
  isInGoodStanding : Option Bool
  noDisciplinaryActions : Option Bool
  profileAccurate : Option Bool
  willUpdateOnChange : Option Bool
  understandsLiability : Option Bool
  ipAddress : Option String
  lsaVerified : Bool
  attestedAt : Nat
  attestationVersion : String
  deriving DecidableEq

/-- A user row, restricted to the fields the attestation/consent handlers read:
`_id` (here `id`), the RBAC `userType`, and the embedded consent object. -/
structure User where
  id : String
  userType : String
  consent : Option ConsentRecord
  deriving DecidableEq

/-! ## Validator (`validateAttestationRequirements`, `validateConsentRequirements`) -/

/-- The six `requiredTrueFields` of `validateAttestationRequirements`. -/
def requiredTrueFields : List String :=
  ["isLicensed", "isInGoodStanding", "noDisciplinaryActions",
   "profileAccurate", "willUpdateOnChange", "understandsLiability"]

/-- Dynamic field access `attestationData[field]` for the six required booleans. -/
def attGetBool (p : AttestationPayload) (field : String) : Option Bool :=
  if field = "isLicensed" then p.isLicensed
  else if field = "isInGoodStanding" then p.isInGoodStanding
  else if field = "noDisciplinaryActions" then p.noDisciplinaryActions
  else if field = "profileAccurate" then p.profileAccurate
  else if field = "willUpdateOnChange" then p.willUpdateOnChange
  else if field = "understandsLiability" then p.understandsLiability
  else none

/-- The semantic-version error message pushed by both validators. -/
def semverMsg : String :=
  "Version must be in semantic version format (e.g., \x271.0\x27 or \x271.0.0\x27)"

/-- The `errors` array built by `validateAttestationRequirements`, in push order. -/
def attestationValidationErrors (p : AttestationPayload) : List String :=
  (if blankStr p.legalName then ["Legal name is required"] else []) ++
  (if blankStr p.barNumber then ["Bar number is required"] else []) ++
  (if jsTruthyStr p.barNumber && !barNumberFormatOk (jsTrim (p.barNumber.getD "")) then
    ["Bar number must be 4-10 alphanumeric characters"] else []) ++
  (requiredTrueFields.filterMap (fun field =>
    if attGetBool p field ≠ some true then some (field ++ " must be confirmed (true)")
    else none)) ++
  (if jsTruthyStr p.attestationVersion && !versionFormatOk (p.attestationVersion.getD "") then
    [semverMsg] else [])

/-- `validateAttestationRequirements`: throws the collected errors, otherwise
returns the payload unchanged. -/
def validateAttestationRequirements (attestationData : AttestationPayload) :
    Except (List String) AttestationPayload :=
  let errors := attestationValidationErrors attestationData
  if errors = [] then .ok attestationData else .error errors

/-- Dynamic field access `consentData[t]` on the partial-update payload. -/
def consentDataField (c : ConsentData) (t : String) : Option Bool :=
  if t = "terms" then c.terms
  else if t = "privacy" then c.privacy
  else if t = "dataProcessing" then c.dataProcessing
  else if t = "marketing" then c.marketing
  else none

/-- The `errors` array built by `validateConsentRequirements`: a required type
that is present in the payload and falsy, then the version-format check. -/
def consentValidationErrors (c : ConsentData) : List String :=
  (REQUIRED_CONSENT_TYPES.filterMap (fun requiredType =>
    if consentDataField c requiredType = some false then
      some (requiredType ++ " consent is required and must be true")
    else none)) ++
  (if jsTruthyStr c.version && !versionFormatOk (c.version.getD "") then [semverMsg] else [])

/-- `validateConsentRequirements`. -/
def validateConsentRequirements (consentData : ConsentData) :
    Except (List String) ConsentData :=
  let errors := consentValidationErrors consentData
  if errors = [] then .ok consentData else .error errors

/-! ## Audit logger (`logConsentEvent`, `logAttestationEvent`) -/

/-- `logConsentEvent`: appends one row to the `consentAuditLog` ledger. -/
def logConsentEvent (log : List AuditEvent) (userId : String) (event : String)
    (metadata : EventMeta) (now : Nat) : List AuditEvent :=
  log ++ [{ userId := userId, event := event,
            version := jsOrStr metadata.version CURRENT_CONSENT_VERSION,
            timestamp := now,
            ipAddress := metadata.ipAddress, userAgent := metadata.userAgent,
            metadata := metadata }]

/-- `logAttestationEvent`: appends the submission/update event with the
attestation metadata to the shared `consentAuditLog` ledger. -/
def logAttestationEvent (log : List AuditEvent) (userId : String)
    (attestation : AttestationPayload) (isUpdate : Bool) (now : Nat) : List AuditEvent :=
  log ++ [{ userId := userId,
            event := if isUpdate then ATTESTATION_EVENTS.ATTESTATION_UPDATED
                     else ATTESTATION_EVENTS.ATTESTATION_SUBMITTED,
            version := jsOrStr attestation.attestationVersion CURRENT_ATTESTATION_VERSION,
            timestamp := now,
            ipAddress := attestation.ipAddress,
            userAgent := none,
            metadata := { barNumber := some attestation.barNumber,
                          legalName := some attestation.legalName,
                          isUpdate := some isUpdate,
                          attestationFields := some
                            { isLicensed := attestation.isLicensed,
                              isInGoodStanding := attestation.isInGoodStanding,
                              noDisciplinaryActions := attestation.noDisciplinaryActions,
                              profileAccurate := attestation.profileAccurate,
                              willUpdateOnChange := attestation.willUpdateOnChange,
                              understandsLiability := attestation.understandsLiability } } }]

/-! ## Upsert store (`storeAttestation`) -/

/-- `verifyLSAStanding`: the stubbed Law Society of Alberta lookup. -/
def verifyLSAStanding (_barNumber : Option String) : Bool := true

/-- `getCurrentAttestation`: the `by_user` unique-index lookup. -/
def getCurrentAttestation (attestations : List AttestationRecord) (userId : String) :
    Option AttestationRecord :=
  attestations.find? (fun r => decide (r.userId = userId))

/-- The `attestationData` object `storeAttestation` writes: every field comes
from the new payload; `creationTime` is the system field of the row. -/
def mkAttestationData (userId : String) (a : AttestationPayload) (lsaVerified : Bool)
    (now : Nat) (creationTime : Nat) : AttestationRecord :=
  { creationTime := creationTime, userId := userId,
    legalName := a.legalName, barNumber := a.barNumber,
    isLicensed := a.isLicensed, isInGoodStanding := a.isInGoodStanding,
    noDisciplinaryActions := a.noDisciplinaryActions, profileAccurate := a.profileAccurate,
    willUpdateOnChange := a.willUpdateOnChange, understandsLiability := a.understandsLiability,
    ipAddress := a.ipAddress, lsaVerified := lsaVerified, attestedAt := now,
    attestationVersion := jsOrStr a.attestationVersion CURRENT_ATTESTATION_VERSION }

/-- `db.patch(existing._id, data)`: replace the first row the `by_user` index
finds, keeping its system `creationTime`. -/
def replaceFirstByUser (attestations : List AttestationRecord) (userId : String)
    (f : AttestationRecord → AttestationRecord) : List AttestationRecord :=
  match attestations with
  | [] => []
  | r :: rs =>
    if r.userId = userId then f r :: rs
    else r :: replaceFirstByUser rs userId f

/-- `storeAttestation`: verify LSA standing, then patch the existing row or
insert a new one. -/
def storeAttestation (attestations : List AttestationRecord) (userId : String)
    (attestation : AttestationPayload) (now : Nat) : List AttestationRecord :=
  let lsaVerified := verifyLSAStanding attestation.barNumber
  match attestations.find? (fun r => decide (r.userId = userId)) with
  | some _ =>
    replaceFirstByUser attestations userId
      (fun r => mkAttestationData userId attestation lsaVerified now r.creationTime)
  | none => attestations ++ [mkAttestationData userId attestation lsaVerified now now]

/-! ## The `submitAttestation` mutation handler -/

/-- The state the attestation handlers touch: the `attestations` table and the
shared `consentAuditLog` ledger. -/
structure AttDb where
  attestations : List AttestationRecord
  auditLog : List AuditEvent
  deriving DecidableEq

/-- The success value of `submitAttestation`. -/
structure SubmitResult where
  success : Bool
  isUpdate : Bool
  message : String
  deriving DecidableEq

deriving instance DecidableEq for Except

/-- The outcome of a mutation handler run: the returned (or thrown) value and
the database state after the handler's own operations. -/
structure SubmitOutcome where
  result : Except String SubmitResult
  db : AttDb
  deriving DecidableEq

/-- The error an audit-ledger insert raises when the host rejects it. -/
def AUDIT_INSERT_FAILED : String := "audit log insert failed"

/-- The `submitAttestation` mutation handler: role check, metadata merge,
validation, update-detection, store, audit append. `auditOk` says whether the
host insert inside `logAttestationEvent` succeeds; the handler has no
try/catch around that step, so a failure there propagates as the result. -/
def submitAttestation (auditOk : Bool) (user : User) (db : AttDb)
    (args : AttestationPayload) (ipAddress : Option String) (now : Nat) : SubmitOutcome :=
  if user.userType ≠ "lawyer" then
    { result := .error "Only users with the \x27lawyer\x27 role can submit an attestation.",
      db := db }
  else
    let attestationData := { args with ipAddress := ipAddress }
    match validateAttestationRequirements attestationData with
    | .error errs =>
      { result := .error ("Attestation validation failed: " ++ String.intercalate "; " errs),
        db := db }
    | .ok _ =>
      let existingAttestation := getCurrentAttestation db.attestations user.id
      let isUpdate := existingAttestation.isSome
      let attestations1 := storeAttestation db.attestations user.id attestationData now
      if auditOk then
        { result := .ok
            { success := true,
              isUpdate := isUpdate,
              message := if isUpdate then "Attestation updated successfully"
                         else "Attestation submitted successfully" },
          db := { attestations := attestations1,
                  auditLog := logAttestationEvent db.auditLog user.id attestationData isUpdate now } }
      else
        { result := .error AUDIT_INSERT_FAILED,
          db := { attestations := attestations1, auditLog := db.auditLog } }

/-! ## Consent update and withdrawal (`updateConsent`, `withdrawConsent`) -/

/-- `oldConsent?.[t]` / `newConsent[t]`: dynamic field access on a possibly
absent consent record, as used by the change-diff loop. -/
def consentFieldOpt : Option ConsentRecord → String → Option Bool
  | none, _ => none
  | some c, t =>
    if t = "terms" then some c.terms
    else if t = "privacy" then some c.privacy
    else if t = "dataProcessing" then some c.dataProcessing
    else if t = "marketing" then c.marketing
    else none

/-- The specific event chosen for one changed consent type inside
`logConsentChanges`. -/
def consentChangeSpecificEvent (consentType : String) (newValue : Option Bool) : String :=
  if consentType = "terms" ∧ newValue = some true then AUDIT_EVENTS.TERMS_ACCEPTED
  else if consentType = "privacy" ∧ newValue = some true then AUDIT_EVENTS.PRIVACY_ACCEPTED
  else if consentType = "marketing" ∧ newValue = some true then AUDIT_EVENTS.MARKETING_OPTED_IN
  else if consentType = "marketing" ∧ (newValue = some false ∨ newValue = none) then
    AUDIT_EVENTS.MARKETING_OPTED_OUT
  else AUDIT_EVENTS.CONSENT_UPDATED

/-- `logConsentChanges`: one coarse `consent_updated` event, then one specific
event per consent type whose value changed (unchanged types are skipped). -/
def logConsentChanges (log : List AuditEvent) (userId : String)
    (oldConsent : Option ConsentRecord) (newConsent : ConsentRecord)
    (version : String) (metadata : EventMeta) (now : Nat) : List AuditEvent :=
  let log1 := logConsentEvent log userId AUDIT_EVENTS.CONSENT_UPDATED
    { metadata with
        version := some version,
        previousConsent := some oldConsent,
        newConsent := some newConsent } now
  CONSENT_TYPES_LIST.foldl (fun acc consentType =>
    let oldValue := consentFieldOpt oldConsent consentType
    let newValue := consentFieldOpt (some newConsent) consentType
    if oldValue = newValue then acc
    else
      logConsentEvent acc userId (consentChangeSpecificEvent consentType newValue)
        { metadata with
            version := some version,
            consentType := some consentType,
            previousValue := some oldValue,
            newValue := some newValue,
            action := some "consent_type_changed" } now) log1

/-- The outcome of a consent handler run: the returned (or thrown) value, the
stored consent object after the handler's operations, and the ledger. -/
structure ConsentOutcome where
  result : Except String ConsentRecord
  consent : Option ConsentRecord
  log : List AuditEvent
  deriving DecidableEq

/-- `updateConsent` for an existing user: validate, merge the partial payload
over the current consent (`??` fallbacks), patch the user, then log the
changes. `auditOk` says whether the host inserts inside `logConsentChanges`
succeed; there is no try/catch, so a failure propagates after the patch. -/
def updateConsent (auditOk : Bool) (consent0 : Option ConsentRecord)
    (log : List AuditEvent) (userId : String) (consentData : ConsentData)
    (metadata : EventMeta) (now : Nat) : ConsentOutcome :=
  let errs := consentValidationErrors consentData
  if errs ≠ [] then
    { result := .error ("Consent validation failed: " ++ String.intercalate "; " errs),
      consent := consent0, log := log }
  else
    let version := jsOrStr consentData.version CURRENT_CONSENT_VERSION
    let newConsent : ConsentRecord :=
      { terms := consentData.terms.getD ((consent0.map (fun c => c.terms)).getD false),
        privacy := consentData.privacy.getD ((consent0.map (fun c => c.privacy)).getD false),
        dataProcessing :=
          consentData.dataProcessing.getD ((consent0.map (fun c => c.dataProcessing)).getD false),
        marketing := match consentData.marketing with
                     | some b => some b
                     | none => consent0.bind (fun c => c.marketing),
        version := version, timestamp := now }
    if auditOk then
      { result := .ok newConsent, consent := some newConsent,
        log := logConsentChanges log userId consent0 newConsent version metadata now }
    else
      { result := .error AUDIT_INSERT_FAILED, consent := some newConsent, log := log }

/-- `withdrawConsent`: refuse unknown types, block and audit-log any attempt to
withdraw a required grant (the event is inserted before the throw), otherwise
drop the optional marketing grant and log one withdrawal event per type. -/
def withdrawConsent (consent0 : Option ConsentRecord) (log : List AuditEvent)
    (userId : String) (consentTypes : List String) (metadata : EventMeta)
    (now : Nat) : ConsentOutcome :=
  match consent0 with
  | none => { result := .error "No consent record found for user", consent := consent0, log := log }
  | some currentConsent =>
    let invalidTypes := consentTypes.filter (fun t => !(decide (t ∈ CONSENT_TYPES_LIST)))
    if invalidTypes ≠ [] then
      { result := .error ("Invalid consent types: " ++ String.intercalate ", " invalidTypes),
        consent := consent0, log := log }
    else
      let requiredBeingWithdrawn :=
        consentTypes.filter (fun t => decide (t ∈ REQUIRED_CONSENT_TYPES))
      if requiredBeingWithdrawn ≠ [] then
        let log1 := logConsentEvent log userId AUDIT_EVENTS.CONSENT_WITHDRAWN
          { metadata with
              attemptedWithdrawal := some requiredBeingWithdrawn,
              action := some "blocked_required_consent_withdrawal",
              message := some "Required consents cannot be withdrawn without account deletion" } now
        { result := .error ("Cannot withdraw required consents: " ++
            String.intercalate ", " requiredBeingWithdrawn ++
            ". To withdraw required consents, please request account deletion."),
          consent := consent0, log := log1 }
      else
        let newConsent : ConsentRecord :=
          { currentConsent with
            marketing := if "marketing" ∈ consentTypes then none
                         else currentConsent.marketing,
            timestamp := now }
        let log2 := consentTypes.foldl (fun acc consentType =>
          logConsentEvent acc userId
            (if consentType = "marketing" then AUDIT_EVENTS.MARKETING_OPTED_OUT
             else AUDIT_EVENTS.CONSENT_WITHDRAWN)
            { metadata with
                consentType := some consentType,
                previousValue := some (consentFieldOpt (some currentConsent) consentType),
                action := some "consent_withdrawn" } now) log
        { result := .ok newConsent, consent := some newConsent, log := log2 }

/-! ## Audit retrieval (`getConsentAuditLog`, `getAttestationAuditLog`) -/

/-- The optional filters of the audit-log queries. `eventType` exists only on
the consent query. -/
structure AuditLogOptions where
  limit : Option Nat := none
  eventType : Option String := none
  fromTimestamp : Option Nat := none
  toTimestamp : Option Nat := none
  deriving DecidableEq

/-- The timestamp-range filter: each bound applies only when JS-truthy
(a `0` or absent bound is ignored). -/
def timestampInRange (opts : AuditLogOptions) (e : AuditEvent) : Bool :=
  (if jsTruthyNat opts.fromTimestamp then decide (opts.fromTimestamp.getD 0 ≤ e.timestamp)
   else true) &&
  (if jsTruthyNat opts.toTimestamp then decide (e.timestamp ≤ opts.toTimestamp.getD 0)
   else true)

/-- The comparator of `results.sort((a, b) => b.timestamp - a.timestamp)`:
newest first. JS sort is stable, so a stable insertion sort under this
relation models it. -/
def newestFirst (a b : AuditEvent) : Prop := b.timestamp ≤ a.timestamp

instance : DecidableRel newestFirst := fun a b => Nat.decLe b.timestamp a.timestamp

instance : IsTotal AuditEvent newestFirst := ⟨fun a b => Nat.le_total b.timestamp a.timestamp⟩

instance : IsTrans AuditEvent newestFirst :=
  ⟨fun _ _ _ h1 h2 => Nat.le_trans h2 h1⟩

/-- `if (options.limit) results = results.slice(0, options.limit)`: the cap
applies only when JS-truthy (a `0` limit is ignored). -/
def applyLimit (limit : Option Nat) (results : List AuditEvent) : List AuditEvent :=
  match limit with
  | some n => if n ≠ 0 then results.take n else results
  | none => results

/-- The rows `getConsentAuditLog` collects before sorting: owner, optional
time range, optional event kind. -/
def consentLogRows (log : List AuditEvent) (userId : String) (opts : AuditLogOptions) :
    List AuditEvent :=
  let rows := log.filter (fun e => decide (e.userId = userId))
  let rows := rows.filter (timestampInRange opts)
  if jsTruthyStr opts.eventType then rows.filter (fun e => decide (e.event = opts.eventType.getD ""))
  else rows

/-- `getConsentAuditLog` for an existing user: filter, sort newest first,
apply the cap. -/
def getConsentAuditLog (log : List AuditEvent) (userId : String) (opts : AuditLogOptions) :
    List AuditEvent :=
  applyLimit opts.limit (List.insertionSort newestFirst (consentLogRows log userId opts))

/-- The event-kind restriction of the attestation audit query. -/
def isAttestationEvent (e : AuditEvent) : Bool :=
  decide (e.event = ATTESTATION_EVENTS.ATTESTATION_SUBMITTED) ||
  decide (e.event = ATTESTATION_EVENTS.ATTESTATION_UPDATED)

/-- The rows `getAttestationAuditLog` collects before sorting: owner,
attestation event kinds only, optional time range. -/
def attestationLogRows (log : List AuditEvent) (userId : String) (opts : AuditLogOptions) :
    List AuditEvent :=
  let rows := log.filter (fun e => decide (e.userId = userId))
  let rows := rows.filter isAttestationEvent
  rows.filter (timestampInRange opts)

/-- `getAttestationAuditLog` for an existing user: filter (attestation events
only), sort newest first, apply the cap. -/
def getAttestationAuditLog (log : List AuditEvent) (userId : String) (opts : AuditLogOptions) :
    List AuditEvent :=
  applyLimit opts.limit (List.insertionSort newestFirst (attestationLogRows log userId opts))

/-! ## Access guard (`canAccessAttestation`, `enforceAttestationAccess`,
`getAttestationByUserId`) -/

/-- `canAccessAttestation`: own record, or the admin role. -/
def canAccessAttestation (currentUserId targetUserId currentUserRole : String) : Bool :=
  if currentUserId = targetUserId then true
  else if currentUserRole = "admin" then true
  else false

/-- `enforceAttestationAccess`: raises the explicit access-denied error when
the guard refuses. -/
def enforceAttestationAccess (currentUserId targetUserId currentUserRole : String) :
    Except String Unit :=
  if !canAccessAttestation currentUserId targetUserId currentUserRole then
    .error "Access denied: You can only access your own attestation data"
  else .ok ()

/-- The `getAttestationByUserId` query handler (after `requireUser`): only an
admin caller passes; everyone else gets an explicit error. -/
def getAttestationByUserId (currentUser : User) (userId : String)
    (attestations : List AttestationRecord) : Except String (Option AttestationRecord) :=
  if currentUser.userType ≠ "admin" then
    .error "Only admins can view other users\x27 attestations"
  else
    .ok (getCurrentAttestation attestations userId)

/-! ## Concrete instances used by the closed theorems -/

/-- A payload that satisfies every validation rule except possibly the
bar-number format. -/
def barPayload (bar : String) : AttestationPayload :=
  { legalName := some "Jane Doe", barNumber := some bar,
    isLicensed := some true, isInGoodStanding := some true,
    noDisciplinaryActions := some true, profileAccurate := some true,
    willUpdateOnChange := some true, understandsLiability := some true,
    attestationVersion := none, ipAddress := none }

/-- A payload with one required boolean absent. -/
def missingBoolPayload : AttestationPayload :=
  { barPayload "AB12" with isLicensed := none }

/-- A payload violating several attestation rules at once. -/
def manyViolationsPayload : AttestationPayload :=
  { legalName := some "   ", barNumber := some "ab", isLicensed := some false,
    isInGoodStanding := none, noDisciplinaryActions := some true,
    profileAccurate := some true, willUpdateOnChange := some true,
    understandsLiability := some true, attestationVersion := some "x.y",
    ipAddress := none }

/-- A consent payload with a required grant explicitly false and a bad version. -/
def badConsentData : ConsentData :=
  { terms := some false, version := some "x.y" }

/-- A lawyer-role user. -/
def lawyerUser : User := { id := "user1", userType := "lawyer", consent := none }

/-- A consent record with every grant given, marketing included. -/
def consentAllGranted : ConsentRecord :=
  { terms := true, privacy := true, dataProcessing := true,
    marketing := some true, version := "1.0", timestamp := 0 }

/-- The same record without the optional marketing grant. -/
def consentNoMarketing : ConsentRecord := { consentAllGranted with marketing := none }

/-- A consent-kind event in the shared ledger. -/
def sampleConsentEvent : AuditEvent :=
  { userId := "user1", event := AUDIT_EVENTS.CONSENT_UPDATED, version := "1.0",
    timestamp := 3, ipAddress := none, userAgent := none, metadata := {} }

/-- An attestation-kind event in the shared ledger. -/
def sampleAttestationEvent : AuditEvent :=
  { userId := "user1", event := ATTESTATION_EVENTS.ATTESTATION_SUBMITTED, version := "1.0",
    timestamp := 7, ipAddress := none, userAgent := none, metadata := {} }

/-- An attestation row already stored for `lawyerUser`. -/
def existingRecord : AttestationRecord :=
  mkAttestationData "user1" (barPayload "AB12") true 1 1

/-! ## C1: bar-number case handling -/

/-- C1 counterexample: the validator does not case-normalize the bar number.
The payload whose bar number is the lowercase alphanumeric string "ab12"
(4 characters, otherwise fully valid) is rejected, where the claim says it is
normalized to "AB12" and accepted. -/
theorem C1_counterexample_lowercase_rejected :
    exceptOk (validateAttestationRequirements (barPayload "ab12")) = false := by decide

/-- C1 (amended): `validateAttestationRequirements` performs no case
normalization: a bar number must already match `^[A-Z0-9]{4,10}$`. "AB12" is
accepted (returned unchanged), the lowercase "ab12" is rejected, and "AB1"
(3 characters) and "AB1234567890" (12 characters) are rejected. -/
theorem C1_bar_number_format :
    validateAttestationRequirements (barPayload "AB12") = .ok (barPayload "AB12") ∧
    exceptOk (validateAttestationRequirements (barPayload "ab12")) = false ∧
    exceptOk (validateAttestationRequirements (barPayload "AB1")) = false ∧
    exceptOk (validateAttestationRequirements (barPayload "AB1234567890")) = false := by decide

/-! ## C9: attestation read access control -/

/-- C9 counterexample: through the `getAttestationByUserId` read path a
non-admin caller asking for their own record (caller identity = target owner
identity) is denied, even though `canAccessAttestation` allows that pair, so
"access is allowed if and only if caller = owner or role = admin" fails for
this read. -/
theorem C9_counterexample_owner_denied :
    exceptOk (getAttestationByUserId lawyerUser "user1" []) = false ∧
    canAccessAttestation "user1" "user1" "lawyer" = true := by decide

/-- C9 (amended): the guard `canAccessAttestation` allows access exactly when
the caller is the owner or has the admin role, and `enforceAttestationAccess`
raises an explicit access-denied error exactly otherwise; the
`getAttestationByUserId` query, however, admits exactly the admin-role
callers — even the owner is denied on that path (owners read their own record
via `getMyAttestation`). Denial is always an explicit error, never a silent
empty result. -/
theorem C9_access_rules (currentUserId targetUserId currentUserRole : String)
    (u : User) (target : String) (attestations : List AttestationRecord) :
    (canAccessAttestation currentUserId targetUserId currentUserRole = true ↔
      (currentUserId = targetUserId ∨ currentUserRole = "admin")) ∧
    (exceptOk (enforceAttestationAccess currentUserId targetUserId currentUserRole) = true ↔
      (currentUserId = targetUserId ∨ currentUserRole = "admin")) ∧
    (exceptOk (getAttestationByUserId u target attestations) = true ↔ u.userType = "admin") := by
  have hcan : canAccessAttestation currentUserId targetUserId currentUserRole = true ↔
      (currentUserId = targetUserId ∨ currentUserRole = "admin") := by
    unfold canAccessAttestation
    by_cases h1 : currentUserId = targetUserId
    · simp [h1]
    · by_cases h2 : currentUserRole = "admin" <;> simp [h1, h2]
  refine ⟨hcan, ?_, ?_⟩
  · unfold enforceAttestationAccess
    by_cases hc : canAccessAttestation currentUserId targetUserId currentUserRole = true
    · rw [← hcan]
      simp [hc, exceptOk]
    · rw [← hcan]
      simp only [Bool.not_eq_true] at hc
      simp [hc, exceptOk]
  · unfold getAttestationByUserId
    by_cases h1 : u.userType = "admin" <;> simp [h1, exceptOk]

/-! ## C6: audit-append failures are not caught -/

/-- C6 counterexample: a fully valid submission by a lawyer on an empty
database succeeds when the audit insert succeeds, but when the audit-ledger
insert fails the same submission fails — the failure is not caught, so
"submitAttestation still succeeds" is false. -/
theorem C6_counterexample_audit_failure_propagates :
    exceptOk (submitAttestation true lawyerUser { attestations := [], auditLog := [] }
      (barPayload "AB12") none 7).result = true ∧
    exceptOk (submitAttestation false lawyerUser { attestations := [], auditLog := [] }
      (barPayload "AB12") none 7).result = false := by decide

/-- C6 (amended): there is no try/catch around the audit-append step: whenever
the audit-ledger insert fails, `submitAttestation` and `updateConsent` raise
the error instead of succeeding (durability of the already-performed write
then rests with the host transaction). -/
theorem C6_audit_failure_fails_parent (user : User) (db : AttDb)
    (args : AttestationPayload) (ip : Option String) (consent0 : Option ConsentRecord)
    (log : List AuditEvent) (userId : String) (c : ConsentData) (metadata : EventMeta)
    (now now2 : Nat) :
    exceptOk (submitAttestation false user db args ip now).result = false ∧
    exceptOk (updateConsent false consent0 log userId c metadata now2).result = false := by
  constructor
  · by_cases hrole : user.userType = "lawyer"
    · cases hv : validateAttestationRequirements { args with ipAddress := ip } with
      | error errs => simp [submitAttestation, hrole, hv, exceptOk]
      | ok q => simp [submitAttestation, hrole, hv, exceptOk]
    · simp [submitAttestation, hrole, exceptOk]
  · by_cases herr : consentValidationErrors c ≠ [] <;>
      simp [updateConsent, herr, exceptOk]

/-! ## C8 counterexample: a supplied limit of 0 is ignored -/

/-- C8 counterexample: with `limit := some 0` supplied, the retrieval does not
return the newest `0` events (`take 0` of the sorted rows, i.e. `[]`): the JS
truthiness test `if (options.limit)` skips a `0` cap, so every matching event
comes back. -/
theorem C8_counterexample_zero_limit :
    getConsentAuditLog [sampleConsentEvent, sampleAttestationEvent] "user1"
        { limit := some 0 } ≠
      (List.insertionSort newestFirst (consentLogRows
        [sampleConsentEvent, sampleAttestationEvent] "user1" { limit := some 0 })).take 0 := by
  decide

/-! ## C4: a missing required boolean blocks submission -/

/-- C4: when any of the six required booleans of the payload is absent or not
strictly `true`, `submitAttestation` fails and the database is unchanged: no
attestation record is created or altered and no audit event is appended. -/
theorem C4_missing_boolean_rejected (auditOk : Bool) (user : User) (db : AttDb)
    (args : AttestationPayload) (ip : Option String) (now : Nat)
    (h : args.isLicensed ≠ some true ∨ args.isInGoodStanding ≠ some true ∨
         args.noDisciplinaryActions ≠ some true ∨ args.profileAccurate ≠ some true ∨
         args.willUpdateOnChange ≠ some true ∨ args.understandsLiability ≠ some true) :
    exceptOk (submitAttestation auditOk user db args ip now).result = false ∧
    (submitAttestation auditOk user db args ip now).db = db := by
  have herr : attestationValidationErrors { args with ipAddress := ip } ≠ [] := by
    intro hnil
    unfold attestationValidationErrors at hnil
    rw [List.append_eq_nil, List.append_eq_nil, List.append_eq_nil, List.append_eq_nil] at hnil
    have hfm := List.filterMap_eq_nil_iff.mp hnil.1.2
    rcases h with h | h | h | h | h | h
    · simpa [attGetBool, h] using hfm "isLicensed" (by simp [requiredTrueFields])
    · simpa [attGetBool, h] using hfm "isInGoodStanding" (by simp [requiredTrueFields])
    · simpa [attGetBool, h] using hfm "noDisciplinaryActions" (by simp [requiredTrueFields])
    · simpa [attGetBool, h] using hfm "profileAccurate" (by simp [requiredTrueFields])
    · simpa [attGetBool, h] using hfm "willUpdateOnChange" (by simp [requiredTrueFields])
    · simpa [attGetBool, h] using hfm "understandsLiability" (by simp [requiredTrueFields])
  by_cases hrole : user.userType = "lawyer"
  · have hv : validateAttestationRequirements { args with ipAddress := ip } =
        .error (attestationValidationErrors { args with ipAddress := ip }) := by
      unfold validateAttestationRequirements
      simp [herr]
    simp [submitAttestation, hrole, hv, exceptOk]
  · simp [submitAttestation, hrole, exceptOk]

/-- C4 witness: the payload with `isLicensed` absent is rejected by a lawyer
submission over a one-record database, which stays exactly as it was. -/
theorem C4_witness :
    exceptOk (submitAttestation true lawyerUser
        { attestations := [existingRecord], auditLog := [] } missingBoolPayload none 9).result
      = false ∧
    (submitAttestation true lawyerUser
        { attestations := [existingRecord], auditLog := [] } missingBoolPayload none 9).db
      = { attestations := [existingRecord], auditLog := [] } :=
  C4_missing_boolean_rejected true lawyerUser
    { attestations := [existingRecord], auditLog := [] } missingBoolPayload none 9
    (Or.inl (by decide))

/-! ## C3: withdrawing a required grant is blocked and audited -/

/-- C3: for a user with an existing consent record, any withdrawal whose
(schema-valid) requested types include a required grant always fails, appends
exactly one ledger event — kind `consent_withdrawn` with metadata action
`blocked_required_consent_withdrawal` — before the error is raised, and leaves
the stored consent record unchanged. -/
theorem C3_required_withdrawal_blocked (cc : ConsentRecord) (log : List AuditEvent)
    (userId : String) (consentTypes : List String) (metadata : EventMeta) (now : Nat)
    (hvalid : ∀ t ∈ consentTypes, t ∈ CONSENT_TYPES_LIST)
    (hreq : ∃ t ∈ consentTypes, t ∈ REQUIRED_CONSENT_TYPES) :
    exceptOk (withdrawConsent (some cc) log userId consentTypes metadata now).result = false ∧
    (withdrawConsent (some cc) log userId consentTypes metadata now).consent = some cc ∧
    ∃ ev, (withdrawConsent (some cc) log userId consentTypes metadata now).log = log ++ [ev] ∧
      ev.userId = userId ∧
      ev.event = AUDIT_EVENTS.CONSENT_WITHDRAWN ∧
      ev.metadata.action = some "blocked_required_consent_withdrawal" := by
  have hinv : consentTypes.filter (fun t => !(decide (t ∈ CONSENT_TYPES_LIST))) = [] := by
    rw [List.filter_eq_nil_iff]
    intro t ht
    simp [hvalid t ht]
  have hreq' : consentTypes.filter (fun t => decide (t ∈ REQUIRED_CONSENT_TYPES)) ≠ [] := by
    obtain ⟨t, ht, htr⟩ := hreq
    exact List.ne_nil_of_mem (List.mem_filter.mpr ⟨ht, by simpa using htr⟩)
  have hout : withdrawConsent (some cc) log userId consentTypes metadata now =
      { result := .error ("Cannot withdraw required consents: " ++
          String.intercalate ", "
            (consentTypes.filter (fun t => decide (t ∈ REQUIRED_CONSENT_TYPES))) ++
          ". To withdraw required consents, please request account deletion."),
        consent := some cc,
        log := logConsentEvent log userId AUDIT_EVENTS.CONSENT_WITHDRAWN
          { metadata with
              attemptedWithdrawal :=
                some (consentTypes.filter (fun t => decide (t ∈ REQUIRED_CONSENT_TYPES))),
              action := some "blocked_required_consent_withdrawal",
              message := some "Required consents cannot be withdrawn without account deletion" }
          now } := by
    simp only [withdrawConsent]
    rw [if_neg (by simp [hinv]), if_pos hreq']
  rw [hout]
  exact ⟨rfl, rfl, ⟨_, rfl, rfl, rfl, rfl⟩⟩

/-- C3 witness: withdrawing `["terms"]` for a user holding a full consent
record fails, the consent stays, and the ledger gains the blocked event. -/
theorem C3_witness :
    exceptOk (withdrawConsent (some consentAllGranted) [] "user1" ["terms"] {} 9).result
      = false ∧
    (withdrawConsent (some consentAllGranted) [] "user1" ["terms"] {} 9).consent =
      some consentAllGranted ∧
    ∃ ev, (withdrawConsent (some consentAllGranted) [] "user1" ["terms"] {} 9).log = [] ++ [ev] ∧
      ev.userId = "user1" ∧
      ev.event = AUDIT_EVENTS.CONSENT_WITHDRAWN ∧
      ev.metadata.action = some "blocked_required_consent_withdrawal" :=
  C3_required_withdrawal_blocked consentAllGranted [] "user1" ["terms"] {} 9
    (by decide) ⟨"terms", by decide, by decide⟩

/-! ## C7: validators collect every violation and are pure gates -/

/-- C7: each validator either returns its payload unchanged (exactly when no
rule is violated) or fails with the error list containing one entry for every
violated rule — blank legal name, blank bar number, bad bar-number format,
each required boolean that is not strictly true, and a malformed version for
the attestation validator; every explicitly-false required grant and a
malformed version for the consent validator. Both are pure functions of the
payload. -/
theorem C7_validators_report_all_violations (p : AttestationPayload) (c : ConsentData) :
    (∀ q, validateAttestationRequirements p = .ok q → q = p) ∧
    (validateAttestationRequirements p = .ok p ↔ attestationValidationErrors p = []) ∧
    (∀ l, validateAttestationRequirements p = .error l →
      l ≠ [] ∧
      (blankStr p.legalName = true → "Legal name is required" ∈ l) ∧
      (blankStr p.barNumber = true → "Bar number is required" ∈ l) ∧
      ((jsTruthyStr p.barNumber && !barNumberFormatOk (jsTrim (p.barNumber.getD ""))) = true →
        "Bar number must be 4-10 alphanumeric characters" ∈ l) ∧
      (∀ f ∈ requiredTrueFields, attGetBool p f ≠ some true →
        (f ++ " must be confirmed (true)") ∈ l) ∧
      ((jsTruthyStr p.attestationVersion &&
          !versionFormatOk (p.attestationVersion.getD "")) = true → semverMsg ∈ l)) ∧
    (∀ q, validateConsentRequirements c = .ok q → q = c) ∧
    (validateConsentRequirements c = .ok c ↔ consentValidationErrors c = []) ∧
    (∀ l, validateConsentRequirements c = .error l →
      l ≠ [] ∧
      (∀ t ∈ REQUIRED_CONSENT_TYPES, consentDataField c t = some false →
        (t ++ " consent is required and must be true") ∈ l) ∧
      ((jsTruthyStr c.version && !versionFormatOk (c.version.getD "")) = true → semverMsg ∈ l)) := by
  refine ⟨?_, ?_, ?_, ?_, ?_, ?_⟩
  · intro q hq
    unfold validateAttestationRequirements at hq
    by_cases herr : attestationValidationErrors p = [] <;> simp [herr] at hq
    exact hq.symm
  · unfold validateAttestationRequirements
    by_cases herr : attestationValidationErrors p = [] <;> simp [herr]
  · intro l hl
    unfold validateAttestationRequirements at hl
    by_cases herr : attestationValidationErrors p = [] <;> simp [herr] at hl
    subst hl
    refine ⟨herr, ?_, ?_, ?_, ?_, ?_⟩
    · intro hguard
      unfold attestationValidationErrors
      simp [hguard, List.mem_append]
    · intro hguard
      unfold attestationValidationErrors
      simp [hguard, List.mem_append]
    · intro hguard
      unfold attestationValidationErrors
      simp [hguard, List.mem_append]
    · intro f hf hne
      unfold attestationValidationErrors
      simp only [List.mem_append]
      refine .inl (.inr (List.mem_filterMap.mpr ⟨f, hf, ?_⟩))
      simp [hne]
    · intro hguard
      unfold attestationValidationErrors
      simp [hguard, List.mem_append]
  · intro q hq
    unfold validateConsentRequirements at hq
    by_cases herr : consentValidationErrors c = [] <;> simp [herr] at hq
    exact hq.symm
  · unfold validateConsentRequirements
    by_cases herr : consentValidationErrors c = [] <;> simp [herr]
  · intro l hl
    unfold validateConsentRequirements at hl
    by_cases herr : consentValidationErrors c = [] <;> simp [herr] at hl
    subst hl
    refine ⟨herr, ?_, ?_⟩
    · intro t ht hfalse
      unfold consentValidationErrors
      simp only [List.mem_append]
      refine .inl (List.mem_filterMap.mpr ⟨t, ht, ?_⟩)
      simp [hfalse]
    · intro hguard
      unfold consentValidationErrors
      simp [hguard, List.mem_append]

/-! ## C8 (amended): retrieval is sorted newest-first; a nonzero cap applies after the sort -/

/-- C8 (amended): both audit retrievals return events sorted by timestamp
descending (`newestFirst`), and a supplied nonzero `limit` yields exactly the
first `limit` events of the sorted filtered rows (the cap is applied after
the sort); a supplied limit of `0` is treated as absent by the JS truthiness
test, so all matching events are returned. -/
theorem C8_sorted_and_capped (log : List AuditEvent) (userId : String)
    (opts : AuditLogOptions) :
    List.Pairwise newestFirst (getConsentAuditLog log userId opts) ∧
    List.Pairwise newestFirst (getAttestationAuditLog log userId opts) ∧
    (∀ n, opts.limit = some n → n ≠ 0 →
      getConsentAuditLog log userId opts =
        (List.insertionSort newestFirst (consentLogRows log userId opts)).take n ∧
      getAttestationAuditLog log userId opts =
        (List.insertionSort newestFirst (attestationLogRows log userId opts)).take n) := by
  have happly : ∀ (limit : Option Nat) (rows : List AuditEvent),
      List.Pairwise newestFirst rows → List.Pairwise newestFirst (applyLimit limit rows) := by
    intro limit rows hrows
    unfold applyLimit
    match limit with
    | none => exact hrows
    | some n =>
      by_cases hn : n = 0
      · simp [hn]
        exact hrows
      · simp [hn]
        exact List.Pairwise.sublist (List.take_sublist n rows) hrows
  refine ⟨?_, ?_, ?_⟩
  · exact happly _ _ (List.sorted_insertionSort newestFirst _)
  · exact happly _ _ (List.sorted_insertionSort newestFirst _)
  · intro n hn hn0
    constructor
    · unfold getConsentAuditLog applyLimit
      rw [hn]
      simp [hn0]
    · unfold getAttestationAuditLog applyLimit
      rw [hn]
      simp [hn0]

/-- C8 witness: on a two-event ledger with `limit := some 1`, the retrievals
are sorted and return the newest single event as the take-1 of the sort. -/
theorem C8_witness :
    List.Pairwise newestFirst (getConsentAuditLog
      [sampleConsentEvent, sampleAttestationEvent] "user1" { limit := some 1 }) ∧
    List.Pairwise newestFirst (getAttestationAuditLog
      [sampleConsentEvent, sampleAttestationEvent] "user1" { limit := some 1 }) ∧
    (∀ n, ({ limit := some 1 } : AuditLogOptions).limit = some n → n ≠ 0 →
      getConsentAuditLog [sampleConsentEvent, sampleAttestationEvent] "user1"
          { limit := some 1 } =
        (List.insertionSort newestFirst (consentLogRows
          [sampleConsentEvent, sampleAttestationEvent] "user1" { limit := some 1 })).take n ∧
      getAttestationAuditLog [sampleConsentEvent, sampleAttestationEvent] "user1"
          { limit := some 1 } =
        (List.insertionSort newestFirst (attestationLogRows
          [sampleConsentEvent, sampleAttestationEvent] "user1" { limit := some 1 })).take n) :=
  C8_sorted_and_capped [sampleConsentEvent, sampleAttestationEvent] "user1" { limit := some 1 }

/-! ## C10: the attestation audit view returns attestation-kind events only -/

/-- C10: although attestation and consent events share the `consentAuditLog`
ledger, every event returned by `getAttestationAuditLog` has kind
`attestation_submitted` or `attestation_updated` — consent-kind events never
appear in its result. -/
theorem C10_attestation_log_event_kinds (log : List AuditEvent) (userId : String)
    (opts : AuditLogOptions) (e : AuditEvent)
    (he : e ∈ getAttestationAuditLog log userId opts) :
    e.event = ATTESTATION_EVENTS.ATTESTATION_SUBMITTED ∨
    e.event = ATTESTATION_EVENTS.ATTESTATION_UPDATED := by
  have h2 : e ∈ attestationLogRows log userId opts := by
    unfold getAttestationAuditLog applyLimit at he
    match hl : opts.limit with
    | none =>
      rw [hl] at he
      exact (List.perm_insertionSort newestFirst _).mem_iff.mp he
    | some n =>
      rw [hl] at he
      by_cases hn : n = 0
      · simp [hn] at he
        exact he
      · simp [hn] at he
        first
        | exact he
        | exact (List.perm_insertionSort newestFirst _).mem_iff.mp (List.take_subset n _ he)
  unfold attestationLogRows at h2
  have h3 := (List.mem_filter.mp h2).1
  have h4 := (List.mem_filter.mp h3).2
  simpa [isAttestationEvent, Bool.or_eq_true, decide_eq_true_eq] using h4

/-- C10 witness: on a ledger holding one consent event and one attestation
event, the attestation event is returned and its kind is one of the two
attestation kinds. -/
theorem C10_witness :
    sampleAttestationEvent ∈ getAttestationAuditLog
      [sampleConsentEvent, sampleAttestationEvent] "user1" {} ∧
    (sampleAttestationEvent.event = ATTESTATION_EVENTS.ATTESTATION_SUBMITTED ∨
     sampleAttestationEvent.event = ATTESTATION_EVENTS.ATTESTATION_UPDATED) :=
  ⟨by decide, C10_attestation_log_event_kinds
    [sampleConsentEvent, sampleAttestationEvent] "user1" {} sampleAttestationEvent (by decide)⟩

/-! ## C2: upsert semantics (`storeAttestation` / `submitAttestation`) -/

/-- Replacing the first row of an owner, with a replacement that keeps the
owner, preserves the number of rows that owner has. -/
theorem length_filter_replaceFirstByUser (attestations : List AttestationRecord) (u : String)
    (f : AttestationRecord → AttestationRecord) (hf : ∀ r, r.userId = u → (f r).userId = u) :
    ((replaceFirstByUser attestations u f).filter (fun r => decide (r.userId = u))).length =
      (attestations.filter (fun r => decide (r.userId = u))).length := by
  induction attestations with
  | nil => rfl
  | cons r rs ih =>
    unfold replaceFirstByUser
    by_cases h : r.userId = u
    · rw [if_pos h]
      simp [List.filter_cons, h, hf r h]
    · rw [if_neg h]
      simp [List.filter_cons, h, ih]

/-- After replacing the first row of an owner, the by-user lookup finds the
replaced row. -/
theorem find?_replaceFirstByUser (attestations : List AttestationRecord) (u : String)
    (f : AttestationRecord → AttestationRecord) (hf : ∀ r, r.userId = u → (f r).userId = u) :
    (replaceFirstByUser attestations u f).find? (fun r => decide (r.userId = u)) =
      (attestations.find? (fun r => decide (r.userId = u))).map f := by
  induction attestations with
  | nil => rfl
  | cons r rs ih =>
    unfold replaceFirstByUser
    by_cases h : r.userId = u
    · rw [if_pos h]
      rw [List.find?_cons_of_pos _ (by simp [hf r h]), List.find?_cons_of_pos _ (by simp [h])]
      rfl
    · rw [if_neg h]
      rw [List.find?_cons_of_neg _ (by simp [h]), List.find?_cons_of_neg _ (by simp [h]), ih]

/-- `find?` over an append whose first part has no match. -/
theorem find?_append_of_none (l1 l2 : List AttestationRecord)
    (p : AttestationRecord → Bool) (h : l1.find? p = none) :
    (l1 ++ l2).find? p = l2.find? p := by
  induction l1 with
  | nil => rfl
  | cons r rs ih =>
    by_cases hr : p r = true
    · rw [List.find?_cons_of_pos _ hr] at h
      exact absurd h (by simp)
    · rw [List.find?_cons_of_neg _ hr] at h
      rw [List.cons_append, List.find?_cons_of_neg _ hr]
      exact ih h

/-- C2: a valid submission by a lawyer upserts. When the owner already has a
record, every stored field is replaced by data computed from the new payload
alone (only the system creation time survives), the result reports
`isUpdate = true`, and the owner has exactly one row afterwards; when no
record exists, a row is inserted, the result reports `isUpdate = false`, and
the owner has exactly one row afterwards. -/
theorem C2_upsert_wholesale (user : User) (db : AttDb) (args : AttestationPayload)
    (ip : Option String) (now : Nat)
    (hrole : user.userType = "lawyer")
    (hwf : (db.attestations.filter (fun r => decide (r.userId = user.id))).length ≤ 1)
    (hvalid : attestationValidationErrors { args with ipAddress := ip } = []) :
    (∀ old, getCurrentAttestation db.attestations user.id = some old →
      (submitAttestation true user db args ip now).result =
        .ok { success := true, isUpdate := true,
              message := "Attestation updated successfully" } ∧
      getCurrentAttestation (submitAttestation true user db args ip now).db.attestations
          user.id =
        some (mkAttestationData user.id { args with ipAddress := ip } true now
          old.creationTime) ∧
      ((submitAttestation true user db args ip now).db.attestations.filter
          (fun r => decide (r.userId = user.id))).length = 1) ∧
    (getCurrentAttestation db.attestations user.id = none →
      (submitAttestation true user db args ip now).result =
        .ok { success := true, isUpdate := false,
              message := "Attestation submitted successfully" } ∧
      getCurrentAttestation (submitAttestation true user db args ip now).db.attestations
          user.id =
        some (mkAttestationData user.id { args with ipAddress := ip } true now now) ∧
      ((submitAttestation true user db args ip now).db.attestations.filter
          (fun r => decide (r.userId = user.id))).length = 1) := by
  have hv : validateAttestationRequirements { args with ipAddress := ip } =
      .ok { args with ipAddress := ip } := by
    unfold validateAttestationRequirements
    simp [hvalid]
  constructor
  · intro old hold
    have hfind : db.attestations.find? (fun r => decide (r.userId = user.id)) = some old := hold
    have hstore : storeAttestation db.attestations user.id { args with ipAddress := ip } now =
        replaceFirstByUser db.attestations user.id
          (fun r => mkAttestationData user.id { args with ipAddress := ip }
            (verifyLSAStanding ({ args with ipAddress := ip } : AttestationPayload).barNumber)
            now r.creationTime) := by
      unfold storeAttestation
      rw [hfind]
    have hsub : submitAttestation true user db args ip now =
        { result := .ok
            { success := true,
              isUpdate := true,
              message := "Attestation updated successfully" },
          db := { attestations := storeAttestation db.attestations user.id
                    { args with ipAddress := ip } now,
                  auditLog := logAttestationEvent db.auditLog user.id
                    { args with ipAddress := ip } true now } } := by
      simp only [submitAttestation, hrole, hv, hold]
      rfl
    refine ⟨by rw [hsub], ?_, ?_⟩
    · simp only [hsub]
      unfold getCurrentAttestation
      rw [hstore, find?_replaceFirstByUser db.attestations user.id
        (fun r => mkAttestationData user.id { args with ipAddress := ip }
          (verifyLSAStanding ({ args with ipAddress := ip } : AttestationPayload).barNumber)
          now r.creationTime) (fun r _ => rfl), hfind]
      rfl
    · simp only [hsub]
      rw [hstore, length_filter_replaceFirstByUser db.attestations user.id
        (fun r => mkAttestationData user.id { args with ipAddress := ip }
          (verifyLSAStanding ({ args with ipAddress := ip } : AttestationPayload).barNumber)
          now r.creationTime) (fun r _ => rfl)]
      have hmem : old ∈ db.attestations.filter (fun r => decide (r.userId = user.id)) :=
        List.mem_filter.mpr ⟨List.mem_of_find?_eq_some hfind,
          by simpa using List.find?_some hfind⟩
      have h1 : 0 < (db.attestations.filter (fun r => decide (r.userId = user.id))).length :=
        List.length_pos.mpr (List.ne_nil_of_mem hmem)
      omega
  · intro hnone
    have hfindn : db.attestations.find? (fun r => decide (r.userId = user.id)) = none := hnone
    have hstore : storeAttestation db.attestations user.id { args with ipAddress := ip } now =
        db.attestations ++ [mkAttestationData user.id { args with ipAddress := ip }
          (verifyLSAStanding ({ args with ipAddress := ip } : AttestationPayload).barNumber)
          now now] := by
      unfold storeAttestation
      rw [hfindn]
    have hsub : submitAttestation true user db args ip now =
        { result := .ok
            { success := true,
              isUpdate := false,
              message := "Attestation submitted successfully" },
          db := { attestations := storeAttestation db.attestations user.id
                    { args with ipAddress := ip } now,
                  auditLog := logAttestationEvent db.auditLog user.id
                    { args with ipAddress := ip } false now } } := by
      simp only [submitAttestation, hrole, hv, hnone]
      rfl
    refine ⟨by rw [hsub], ?_, ?_⟩
    · simp only [hsub]
      unfold getCurrentAttestation
      rw [hstore, find?_append_of_none _ _ _ hfindn]
      rw [List.find?_cons_of_pos _ (by simp [mkAttestationData])]
      rfl
    · simp only [hsub]
      rw [hstore, List.filter_append]
      have hfe : db.attestations.filter (fun r => decide (r.userId = user.id)) = [] := by
        rw [List.filter_eq_nil_iff]
        intro a ha
        simpa using List.find?_eq_none.mp hfindn a ha
      rw [hfe]
      simp [mkAttestationData]

/-- C2 witness: resubmission over a one-record database replaces the record
with data from the new payload, reports an update, and keeps one row; the
hypotheses are discharged by evaluation. -/
theorem C2_witness :
    (submitAttestation true lawyerUser { attestations := [existingRecord], auditLog := [] }
        (barPayload "XY99") none 42).result =
      .ok { success := true, isUpdate := true,
            message := "Attestation updated successfully" } ∧
    getCurrentAttestation (submitAttestation true lawyerUser
        { attestations := [existingRecord], auditLog := [] }
        (barPayload "XY99") none 42).db.attestations "user1" =
      some (mkAttestationData "user1" { barPayload "XY99" with ipAddress := none } true 42
        existingRecord.creationTime) ∧
    ((submitAttestation true lawyerUser { attestations := [existingRecord], auditLog := [] }
        (barPayload "XY99") none 42).db.attestations.filter
        (fun r => decide (r.userId = "user1"))).length = 1 :=
  (C2_upsert_wholesale lawyerUser { attestations := [existingRecord], auditLog := [] }
      (barPayload "XY99") none 42 (by decide) (by decide) (by decide)).1
    existingRecord (by decide)

/-! ## C5: marketing toggle audit events -/

/-- C5 counterexample: for a user whose stored record has terms, privacy and
dataProcessing values but whose marketing flag is already `true`,
`updateMyConsent({marketing:true})` emits no `marketing_opted_in` event — the
field diff sees no change — so the claimed event sequence does not occur for
every user covered by the claim. -/
theorem C5_counterexample_marketing_already_true :
    ((updateConsent true (some consentAllGranted) [] "user1"
        { marketing := some true } {} 5).log.filter
      (fun e => decide (e.event = AUDIT_EVENTS.MARKETING_OPTED_IN))) = [] := by decide

/-- C5 (amended): provided the stored marketing value is not already `true`,
updating marketing to `true` and then to `false` appends exactly four events:
the coarse `consent_updated` plus `marketing_opted_in`, then the coarse
`consent_updated` plus `marketing_opted_out`. The unchanged `terms`,
`privacy` and `dataProcessing` fields produce no field-level event. -/
theorem C5_marketing_toggle_events (cc : ConsentRecord) (log : List AuditEvent)
    (userId : String) (m1 m2 : EventMeta) (t1 t2 : Nat)
    (hm : cc.marketing ≠ some true) :
    ((updateConsent true
        (updateConsent true (some cc) log userId { marketing := some true } m1 t1).consent
        (updateConsent true (some cc) log userId { marketing := some true } m1 t1).log
        userId { marketing := some false } m2 t2).log).map (fun e => e.event) =
      log.map (fun e => e.event) ++
        [AUDIT_EVENTS.CONSENT_UPDATED, AUDIT_EVENTS.MARKETING_OPTED_IN,
         AUDIT_EVENTS.CONSENT_UPDATED, AUDIT_EVENTS.MARKETING_OPTED_OUT] := by
  have hverr1 : consentValidationErrors { marketing := some true } = [] := by decide
  have hverr2 : consentValidationErrors { marketing := some false } = [] := by decide
  simp [updateConsent, hverr1, hverr2, logConsentChanges, CONSENT_TYPES_LIST,
    consentFieldOpt, logConsentEvent, consentChangeSpecificEvent, jsOrStr, hm,
    CURRENT_CONSENT_VERSION, List.map_append]

/-- C5 witness: for the concrete record without a marketing value, the toggle
emits exactly the four events in order. -/
theorem C5_witness :
    ((updateConsent true
        (updateConsent true (some consentNoMarketing) [] "user1"
          { marketing := some true } {} 11).consent
        (updateConsent true (some consentNoMarketing) [] "user1"
          { marketing := some true } {} 11).log
        "user1" { marketing := some false } {} 12).log).map (fun e => e.event) =
      ([] : List AuditEvent).map (fun e => e.event) ++
        [AUDIT_EVENTS.CONSENT_UPDATED, AUDIT_EVENTS.MARKETING_OPTED_IN,
         AUDIT_EVENTS.CONSENT_UPDATED, AUDIT_EVENTS.MARKETING_OPTED_OUT] :=
  C5_marketing_toggle_events consentNoMarketing [] "user1" {} {} 11 12 (by decide)

end AlbertaLegal



